import Mathlib

/-!
Shallow embedding of `soundcraft/installtool.py` (post-install and
pre-uninstall commands of the socranop/soundcraft-utils package).

Modelling conventions:
* A filesystem path is a `List String` of components; all paths are
  absolute, the leading `/` is implicit (so `["usr", "local"]` stands for
  `/usr/local`).  `pathlib.Path` equality and `Path.relative_to` are purely
  lexical on parts, which the list representation captures.
* The filesystem is a partial map `FS := Path → Option String` from file
  paths to file contents.
* External collaborators (the session bus, `xdg-desktop-menu`,
  `xdg-icon-resource`, `string.Template.substitute`) are parameters or
  abstract trace entries: the embedding records the exact invocation the
  Python code performs without interpreting the external tool.
* Process-wide constants from `soundcraft.constants` / `soundcraft.dbus`
  (`BASE_EXE_INSTALLTOOL`, `BASE_EXE_SERVICE`, `BUSNAME`) and the user's
  home directory are parameters of the embedded functions.
-/

namespace Installtool

abbrev Path := List String

/-- `str(path)` for an absolute pathlib path. -/
def pathStr (p : Path) : String := "/" ++ String.intercalate "/" p

/-- `path.name`: the final component (empty for the root path). -/
def fileName (p : Path) : String := p.getLastD ""

/-- Index of the last occurrence of `c` in `cs`, like Python `str.rfind`
(but `none` instead of `-1` when absent). -/
def lastIdxOf (c : Char) (cs : List Char) : Option Nat :=
  match cs.reverse.findIdx? (fun x => x = c) with
  | none => none
  | some j => some (cs.length - 1 - j)

/-- `pathlib`'s suffix of a file *name*: `name[i:]` for `i = name.rfind('.')`
when `0 < i < len(name) - 1`, else the empty string. -/
def nameSuffix (s : String) : String :=
  let cs := s.data
  match lastIdxOf '.' cs with
  | none => ""
  | some i => if 0 < i ∧ i < cs.length - 1 then String.mk (cs.drop i) else ""

/-- `path.suffix` = suffix of the final component. -/
def pathSuffix (p : Path) : String := nameSuffix (fileName p)

/-- `child.relative_to(base)` succeeds iff `base`'s parts are a prefix of
`child`'s parts (purely lexical, as in pathlib). -/
def isRelativeTo : Path → Path → Bool
  | _, [] => true
  | [], _ :: _ => false
  | a :: as, b :: bs => a == b && isRelativeTo as bs

/-!  ### `exePath` and `find_datadir`  -/

/-- Source `exePath()`: the resolved `sys.argv[0]` (here a parameter
`argv0` standing for `Path(sys.argv[0]).resolve()`); raises `ValueError`
when its suffix is `.py`. -/
def exePath (argv0 : Path) : Except String Path :=
  if pathSuffix argv0 = ".py" then
    Except.error "Running installtool out of a module-based execution is not supported"
  else
    Except.ok argv0

/-- Source `serviceExePath()`: `exePath().parent / const.BASE_EXE_SERVICE`. -/
def serviceExePath (argv0 : Path) (serviceName : String) : Except String Path :=
  (exePath argv0).map (fun exe => exe.dropLast ++ [serviceName])

/-- The candidate prefixes of `find_datadir`, in priority order:
`/usr/local`, `/usr`, `Path("~/.local").expanduser()` (the user's home
directory `home` joined with `.local`). -/
def prefixCandidates (home : Path) : List Path :=
  [["usr", "local"], ["usr"], home ++ [".local"]]

/-- The executable subdirectories tried by `find_datadir`. -/
def sx_dirs : List String := ["bin", "sbin", "libexec"]

/-- Innermost loop of `find_datadir`: `for sx in [const.BASE_EXE_INSTALLTOOL]`.
For each candidate executable name, return `prefix/share` if
`prefix/sx_dir/sx` equals the executable path, or (the `try` block) if
`exe_path.relative_to(prefix)` succeeds. -/
def scanSxs (exe_path : Path) (pfx : Path) (sx_dir : String) : List String → Option Path
  | [] => none
  | sx :: rest =>
    let sx_path := pfx ++ [sx_dir, sx]
    if sx_path = exe_path then some (pfx ++ ["share"])
    else if isRelativeTo exe_path pfx then some (pfx ++ ["share"])
    else scanSxs exe_path pfx sx_dir rest

/-- Middle loop of `find_datadir`: `for sx_dir in ["bin", "sbin", "libexec"]`. -/
def scanSxdirs (exe_path : Path) (pfx : Path) (instName : String) : List String → Option Path
  | [] => none
  | sx_dir :: rest =>
    match scanSxs exe_path pfx sx_dir [instName] with
    | some d => some d
    | none => scanSxdirs exe_path pfx instName rest

/-- Outer loop of `find_datadir`: the candidate prefixes in priority order. -/
def scanPrefixes (exe_path : Path) (instName : String) : List Path → Option Path
  | [] => none
  | pfx :: rest =>
    match scanSxdirs exe_path pfx instName sx_dirs with
    | some d => some d
    | none => scanPrefixes exe_path instName rest

/-- Source `find_datadir()`: resolve the executable path (propagating the
`.py` failure), scan the candidate prefixes, and raise
`ValueError(f"Exe path is not supported: ...")` when no prefix matches. -/
def find_datadir (argv0 : Path) (home : Path) (instName : String) : Except String Path :=
  match exePath argv0 with
  | Except.error e => Except.error e
  | Except.ok exe_path =>
    match scanPrefixes exe_path instName (prefixCandidates home) with
    | some d => Except.ok d
    | none => Except.error ("Exe path is not supported: " ++ pathStr exe_path)

/-- The simplified resolver described by the spec's open question: it omits
the exact `prefix/sx_dir/name` equality test and decides solely by testing,
in priority order, whether the executable path is contained within each
candidate prefix.  (Stated from the spec's words, for comparison with
`find_datadir` in the refinement claim.) -/
def find_datadir_containment_only (argv0 : Path) (home : Path) (_instName : String) :
    Except String Path :=
  match exePath argv0 with
  | Except.error e => Except.error e
  | Except.ok exe_path =>
    match (prefixCandidates home).find? (fun pfx => isRelativeTo exe_path pfx) with
    | some pfx => Except.ok (pfx ++ ["share"])
    | none => Except.error ("Exe path is not supported: " ++ pathStr exe_path)

/-!  ### The D-Bus activation probe (`post_install_dbus`, retry loop)  -/

/-- Outcome of one `dbus_service.StartServiceByName(BUSNAME, 0)` call:
success, a `GLibError` (the transient "unknown service" class caught by the
source's `except GLibError:`), or any other exception. -/
inductive AttemptResult
  | success
  | glibError
  | otherError
deriving DecidableEq

/-- Outcome of the whole retry loop, recording how many
`StartServiceByName` attempts were made. -/
inductive ProbeOutcome
  | ok (attempts : Nat)
  | raisedGLib (attempts : Nat)
  | raisedOther (attempts : Nat)
deriving DecidableEq

/-- The `while True:` loop of `post_install_dbus`.  `bus i` is the result of
the `i`-th (0-based) `StartServiceByName` attempt; `timeout` is the source's
countdown variable.  On success: `break`.  On `GLibError`: re-raise when
`timeout == 0`, else decrement, `time.sleep(1)` and `continue`.  Any other
exception is not caught and propagates. -/
def probeLoop (bus : Nat → AttemptResult) : Nat → Nat → ProbeOutcome
  | attempt, timeout =>
    match bus attempt, timeout with
    | AttemptResult.success, _ => ProbeOutcome.ok (attempt + 1)
    | AttemptResult.otherError, _ => ProbeOutcome.raisedOther (attempt + 1)
    | AttemptResult.glibError, 0 => ProbeOutcome.raisedGLib (attempt + 1)
    | AttemptResult.glibError, t + 1 => probeLoop bus (attempt + 1) t

/-- The activation probe as run by `post_install_dbus`: `timeout = 5`,
starting at the first attempt. -/
def probe (bus : Nat → AttemptResult) : ProbeOutcome := probeLoop bus 0 5

/-!  ### Filesystem model and operation traces  -/

/-- The filesystem: a partial map from absolute paths to file contents. -/
abbrev FS := Path → Option String

/-- `open(p, "w")` followed by writing `c`: creates or overwrites. -/
def writeFile (fs : FS) (p : Path) (c : String) : FS :=
  fun q => if q = p then some c else fs q

/-- The only filesystem error the embedded code distinguishes:
`FileNotFoundError` raised by `Path.unlink` on a missing file. -/
inductive FsError
  | fileNotFound
deriving DecidableEq

/-- `p.unlink()`: removes the file, raising `FileNotFoundError` when it does
not exist. -/
def unlink (fs : FS) (p : Path) : Except FsError FS :=
  match fs p with
  | some _ => Except.ok (fun q => if q = p then none else fs q)
  | none => Except.error FsError.fileNotFound

/-- Externally visible operations performed by the install/uninstall steps:
subprocess invocations (argument vector as passed to `subprocess.run`),
directory creation, `shutil.copy` into a directory, file writes, unlink
attempts and the D-Bus shutdown call. -/
inductive Op
  | run (args : List String)
  | mkdirParents (p : Path)
  | copyInto (src : Path) (dstDir : Path)
  | write (p : Path) (content : String)
  | unlinkAttempt (p : Path)
  | shutdownService
deriving DecidableEq

/-- The fixed icon sizes of the XDG steps: `(16, 24, 32, 48, 256)`. -/
def iconSizes : List Nat := [16, 24, 32, 48, 256]

/-!  ### `post_install_dbus`: rendering the `.service` descriptor  -/

/-- The `templateData` dictionary built by `post_install_dbus`: exactly two
keys, `dbus_service_bin` (the service executable's absolute path as a
string) and `busname`. -/
structure TemplateData where
  dbus_service_bin : String
  busname : String
deriving DecidableEq

/-- The destination of the rendered service descriptor:
`datadir / "dbus-1/services" / f"\x7bBUSNAME\x7d.service"` — a function of
the datadir and the bus name only. -/
def serviceDst (datadir : Path) (busname : String) : Path :=
  datadir ++ ["dbus-1", "services", busname ++ ".service"]

/-- The file-installation phase of `post_install_dbus` as the list of file
writes it performs.  `render` stands for Python's
`Template(source).substitute(templateData)`; `sources` is the
`findDataFiles("dbus-1")` result as (data-directory, relative files) pairs;
`contents` gives each source file's text.  For every file whose suffix is
`.service`, the rendered template is written to `serviceDst`; other files
produce no write. -/
def post_install_dbus_writes (render : String → TemplateData → String)
    (datadir : Path) (serviceExe : Path) (busname : String)
    (sources : List (Path × List Path)) (contents : Path → String) :
    List (Path × String) :=
  sources.flatMap fun sp =>
    sp.2.filterMap fun f =>
      let src := sp.1 ++ f
      if pathSuffix src = ".service" then
        some (serviceDst datadir busname,
              render (contents src) ⟨pathStr serviceExe, busname⟩)
      else
        none

/-- Apply a list of file writes (in order) to a filesystem. -/
def applyWrites (ws : List (Path × String)) (fs : FS) : FS :=
  ws.foldl (fun acc w => writeFile acc w.1 w.2) fs

/-!  ### `post_install_xdg` and `pre_uninstall_xdg`: per-file dispatch  -/

/-- One iteration of the `post_install_xdg` file loop, for the relative
file `f` found under `srcpath`.  Returns the updated filesystem and the
trace of external operations:
`.desktop` → `xdg-desktop-menu install --novendor <path>`;
`.png` → one `xdg-icon-resource install` per size in `iconSizes`;
`.svg` → create the scalable-icon directory and `shutil.copy` the file in
(destination `<dir>/<f.name>`, overwriting);
any other suffix → nothing. -/
def post_install_xdg_file (datadir : Path) (srcpath : Path) (f : Path)
    (contents : Path → String) (fs : FS) : FS × List Op :=
  let src := srcpath ++ f
  if pathSuffix src = ".desktop" then
    (fs, [Op.run ["xdg-desktop-menu", "install", "--novendor", pathStr src]])
  else if pathSuffix src = ".png" then
    (fs, iconSizes.map fun size =>
      Op.run ["xdg-icon-resource", "install", "--novendor", "--size",
              toString size, pathStr src])
  else if pathSuffix src = ".svg" then
    let scalable_icondir := datadir ++ ["icons", "hicolor", "scalable", "apps"]
    (writeFile fs (scalable_icondir ++ [fileName src]) (contents src),
     [Op.mkdirParents scalable_icondir, Op.copyInto src scalable_icondir])
  else
    (fs, [])

/-- One iteration of the `pre_uninstall_xdg` file loop for the relative
file `f` (the source dispatches on `f.suffix` and passes `f.name`):
`.desktop` → `xdg-desktop-menu uninstall --novendor <name>`;
`.png` → one `xdg-icon-resource uninstall` per size in `iconSizes`;
`.svg` → `unlink` of `<datadir>/icons/hicolor/scalable/apps/<name>`, with
`FileNotFoundError` caught and ignored;
any other suffix → nothing.  The `Except` records the exception channel:
an uncaught filesystem error would surface here. -/
def pre_uninstall_xdg_file (datadir : Path) (f : Path) (fs : FS) :
    Except FsError (FS × List Op) :=
  if pathSuffix f = ".desktop" then
    Except.ok (fs, [Op.run ["xdg-desktop-menu", "uninstall", "--novendor", fileName f]])
  else if pathSuffix f = ".png" then
    Except.ok (fs, iconSizes.map fun size =>
      Op.run ["xdg-icon-resource", "uninstall", "--size", toString size, fileName f])
  else if pathSuffix f = ".svg" then
    let svg := datadir ++ ["icons", "hicolor", "scalable", "apps", fileName f]
    match unlink fs svg with
    | Except.ok fs2 => Except.ok (fs2, [Op.unlinkAttempt svg])
    | Except.error FsError.fileNotFound => Except.ok (fs, [Op.unlinkAttempt svg])
  else
    Except.ok (fs, [])

/-!  ### `pre_uninstall_dbus`  -/

/-- `pre_uninstall_dbus` after prefix resolution: when the bus reports the
service has an owner (`running`), shut it down; then unconditionally
attempt `service_dst.unlink()`, treating `FileNotFoundError` as success.
The bus interactions are recorded in the trace; the `Except` is the
exception channel of the function body. -/
def pre_uninstall_dbus_step (datadir : Path) (busname : String)
    (running : Bool) (fs : FS) : Except FsError (FS × List Op) :=
  let service_dst := serviceDst datadir busname
  let busTrace := if running then [Op.shutdownService] else []
  match unlink fs service_dst with
  | Except.ok fs2 => Except.ok (fs2, busTrace ++ [Op.unlinkAttempt service_dst])
  | Except.error FsError.fileNotFound =>
      Except.ok (fs, busTrace ++ [Op.unlinkAttempt service_dst])

/-!  ## Helper lemmas  -/

theorem isRelativeTo_append (pfx rest : Path) : isRelativeTo (pfx ++ rest) pfx = true := by
  induction pfx with
  | nil => simp [isRelativeTo]
  | cons a as ih => simp [isRelativeTo, ih]

theorem scanSxs_of_rel {exe pfx : Path} (h : isRelativeTo exe pfx = true)
    (d sx : String) (sxs : List String) :
    scanSxs exe pfx d (sx :: sxs) = some (pfx ++ ["share"]) := by
  simp only [scanSxs]
  split
  · rfl
  · simp [h]

theorem scanSxs_of_not_rel {exe pfx : Path} (h : isRelativeTo exe pfx = false)
    (d : String) : ∀ sxs : List String, scanSxs exe pfx d sxs = none := by
  intro sxs
  induction sxs with
  | nil => rfl
  | cons sx rest ih =>
    have hne : ¬(pfx ++ [d, sx] = exe) := by
      intro he
      rw [← he, isRelativeTo_append] at h
      cases h
    simp only [scanSxs]
    rw [if_neg hne, if_neg (by simp [h])]
    exact ih

theorem scanSxdirs_sx_dirs (exe pfx : Path) (n : String) :
    scanSxdirs exe pfx n sx_dirs =
      (if isRelativeTo exe pfx then some (pfx ++ ["share"]) else none) := by
  by_cases h : isRelativeTo exe pfx
  · have : sx_dirs = "bin" :: ["sbin", "libexec"] := rfl
    rw [this]
    simp only [scanSxdirs, scanSxs_of_rel h]
    simp [h]
  · have h' : isRelativeTo exe pfx = false := by
      revert h
      cases isRelativeTo exe pfx <;> simp
    have hnone : ∀ ds : List String, scanSxdirs exe pfx n ds = none := by
      intro ds
      induction ds with
      | nil => rfl
      | cons d rest ih => simp [scanSxdirs, scanSxs_of_not_rel h', ih]
    simp [hnone, h']

theorem scanPrefixes_eq_find (exe : Path) (n : String) :
    ∀ l : List Path,
      scanPrefixes exe n l =
        (l.find? (fun pfx => isRelativeTo exe pfx)).map (fun pfx => pfx ++ ["share"]) := by
  intro l
  induction l with
  | nil => rfl
  | cons pfx rest ih =>
    by_cases h : isRelativeTo exe pfx
    · simp [scanPrefixes, scanSxdirs_sx_dirs, List.find?, h]
    · have h' : isRelativeTo exe pfx = false := by
        revert h
        cases isRelativeTo exe pfx <;> simp
      simp [scanPrefixes, scanSxdirs_sx_dirs, List.find?, h', ih]

theorem exePath_ok {argv0 : Path} (hpy : pathSuffix argv0 ≠ ".py") :
    exePath argv0 = Except.ok argv0 := by
  unfold exePath
  rw [if_neg hpy]

/-!  ## Claim theorems  -/

/-- C10: for every executable path, `find_datadir` computes the same outcome
(same data directory or same failure) as the simplified resolver that omits
the exact `prefix/(bin|sbin|libexec)/name` equality test and decides solely
by containment in each candidate prefix, in priority order; the exact-match
branch never changes the result. -/
theorem find_datadir_eq_containment_only (argv0 home : Path) (instName : String) :
    find_datadir argv0 home instName = find_datadir_containment_only argv0 home instName := by
  by_cases hpy : pathSuffix argv0 = ".py"
  · have he : exePath argv0
        = Except.error "Running installtool out of a module-based execution is not supported" := by
      unfold exePath
      rw [if_pos hpy]
    simp only [find_datadir, find_datadir_containment_only, he]
  · simp only [find_datadir, find_datadir_containment_only, exePath_ok hpy,
      scanPrefixes_eq_find]
    cases hf : (prefixCandidates home).find? (fun pfx => isRelativeTo argv0 pfx) <;>
      simp [hf]

/-- C2: for each of the three candidate prefixes, an executable at
`<prefix>/bin/<installtool-name>` resolves to `<prefix>/share`; for the
user-local prefix this holds whenever no earlier candidate contains the
executable, and in general the first candidate prefix in priority order that
contains the executable wins. -/
theorem find_datadir_bin_resolution (home : Path) (instName : String)
    (hpy : nameSuffix instName ≠ ".py") :
    (find_datadir ["usr", "local", "bin", instName] home instName
        = Except.ok ["usr", "local", "share"])
    ∧ (find_datadir ["usr", "bin", instName] home instName
        = Except.ok ["usr", "share"])
    ∧ (isRelativeTo (home ++ [".local", "bin", instName]) ["usr", "local"] = false →
        isRelativeTo (home ++ [".local", "bin", instName]) ["usr"] = false →
        find_datadir (home ++ [".local", "bin", instName]) home instName
          = Except.ok (home ++ [".local", "share"]))
    ∧ (∀ argv0 pfx, pathSuffix argv0 ≠ ".py" →
        (prefixCandidates home).find? (fun p => isRelativeTo argv0 p) = some pfx →
        find_datadir argv0 home instName = Except.ok (pfx ++ ["share"])) := by
  have hgen : ∀ argv0 pfx, pathSuffix argv0 ≠ ".py" →
      (prefixCandidates home).find? (fun p => isRelativeTo argv0 p) = some pfx →
      find_datadir argv0 home instName = Except.ok (pfx ++ ["share"]) := by
    intro argv0 pfx hp hf
    simp only [find_datadir, exePath_ok hp, scanPrefixes_eq_find, hf]
    rfl
  refine ⟨?_, ?_, ?_, hgen⟩
  · have hsuf : pathSuffix ["usr", "local", "bin", instName] = nameSuffix instName := by
      simp [pathSuffix, fileName]
    refine hgen _ ["usr", "local"] (by rw [hsuf]; exact hpy) ?_
    have hrel : isRelativeTo ["usr", "local", "bin", instName] ["usr", "local"] = true :=
      isRelativeTo_append ["usr", "local"] ["bin", instName]
    simp only [prefixCandidates]
    exact List.find?_cons_of_pos _ hrel
  · have hsuf : pathSuffix ["usr", "bin", instName] = nameSuffix instName := by
      simp [pathSuffix, fileName]
    refine hgen _ ["usr"] (by rw [hsuf]; exact hpy) ?_
    have h1 : isRelativeTo ["usr", "bin", instName] ["usr", "local"] = false := by
      simp [isRelativeTo]
    have hrel2 : isRelativeTo ["usr", "bin", instName] ["usr"] = true :=
      isRelativeTo_append ["usr"] ["bin", instName]
    simp only [prefixCandidates]
    rw [List.find?_cons_of_neg _ (by simp [h1])]
    exact List.find?_cons_of_pos _ hrel2
  · intro h1 h2
    have hsuf : pathSuffix (home ++ [".local", "bin", instName]) = nameSuffix instName := by
      simp [pathSuffix, fileName]
    have e3 : home ++ [".local", "bin", instName]
        = (home ++ [".local"]) ++ ["bin", instName] := by
      simp
    have e4 : (home ++ [".local"]) ++ ["share"] = home ++ [".local", "share"] := by
      simp
    have hrel3 : isRelativeTo (home ++ [".local", "bin", instName]) (home ++ [".local"])
        = true := by
      rw [e3]
      exact isRelativeTo_append _ _
    have hmain := hgen (home ++ [".local", "bin", instName]) (home ++ [".local"])
      (by rw [hsuf]; exact hpy)
      (by
        simp only [prefixCandidates]
        rw [List.find?_cons_of_neg _ (by simp [h1]), List.find?_cons_of_neg _ (by simp [h2])]
        exact List.find?_cons_of_pos _ hrel3)
    rw [hmain, e4]

/-- C3: an executable path contained in none of the three candidate prefixes
makes `find_datadir` fail with the "not supported" error instead of
returning a data directory. -/
theorem find_datadir_unsupported (argv0 home : Path) (instName : String)
    (hpy : pathSuffix argv0 ≠ ".py")
    (h : ∀ pfx ∈ prefixCandidates home, isRelativeTo argv0 pfx = false) :
    find_datadir argv0 home instName
      = Except.error ("Exe path is not supported: " ++ pathStr argv0) := by
  have hf : (prefixCandidates home).find? (fun pfx => isRelativeTo argv0 pfx) = none := by
    rw [List.find?_eq_none]
    intro x hx
    simp [h x hx]
  simp only [find_datadir, exePath_ok hpy, scanPrefixes_eq_find, hf]
  rfl

/-- C8: an executable path whose suffix is `.py` makes `exePath` raise the
descriptive module-based-execution error, and `find_datadir` propagates the
same error before performing any candidate-prefix comparison (the outcome is
independent of the home directory, the executable name and every prefix
test). -/
theorem find_datadir_py_fails_fast (argv0 home : Path) (instName : String)
    (hpy : pathSuffix argv0 = ".py") :
    exePath argv0
      = Except.error "Running installtool out of a module-based execution is not supported"
    ∧ find_datadir argv0 home instName
      = Except.error "Running installtool out of a module-based execution is not supported" := by
  have he : exePath argv0
      = Except.error "Running installtool out of a module-based execution is not supported" := by
    unfold exePath
    rw [if_pos hpy]
  exact ⟨he, by simp only [find_datadir, he]⟩

/-!  ## Witnesses  -/

/-- Witness for C2 at a concrete home directory and executable name. -/
theorem find_datadir_bin_resolution_witness :
    find_datadir ["usr", "local", "bin", "soundcraft_installtool"] ["home", "me"]
        "soundcraft_installtool" = Except.ok ["usr", "local", "share"]
    ∧ find_datadir (["home", "me"] ++ [".local", "bin", "soundcraft_installtool"])
        ["home", "me"] "soundcraft_installtool"
        = Except.ok (["home", "me"] ++ [".local", "share"]) := by
  have h := find_datadir_bin_resolution ["home", "me"] "soundcraft_installtool" (by decide)
  exact ⟨h.1, h.2.2.1 (by decide) (by decide)⟩

/-- Witness for C3: an executable under `/opt` is in no candidate prefix. -/
theorem find_datadir_unsupported_witness :
    find_datadir ["opt", "bin", "soundcraft_installtool"] ["home", "me"]
        "soundcraft_installtool"
      = Except.error ("Exe path is not supported: "
          ++ pathStr ["opt", "bin", "soundcraft_installtool"]) :=
  find_datadir_unsupported ["opt", "bin", "soundcraft_installtool"] ["home", "me"]
    "soundcraft_installtool" (by decide) (by decide)

/-- Witness for C8: a `.py` invocation fails fast even from `/usr/bin`. -/
theorem find_datadir_py_fails_fast_witness :
    find_datadir ["usr", "bin", "installtool.py"] ["home", "me"] "soundcraft_installtool"
      = Except.error "Running installtool out of a module-based execution is not supported" :=
  (find_datadir_py_fails_fast ["usr", "bin", "installtool.py"] ["home", "me"]
    "soundcraft_installtool" (by decide)).2

/-!  ## Probe-loop lemmas  -/

theorem probeLoop_success (bus : Nat → AttemptResult) :
    ∀ (N a t : Nat), N ≤ t →
      (∀ i, i < N → bus (a + i) = AttemptResult.glibError) →
      bus (a + N) = AttemptResult.success →
      probeLoop bus a t = ProbeOutcome.ok (a + N + 1) := by
  intro N
  induction N with
  | zero =>
    intro a t _ _ hs
    simp only [Nat.add_zero] at hs
    simp [probeLoop, hs]
  | succ N ih =>
    intro a t hNt hglib hs
    match t, hNt with
    | t + 1, _ =>
      have h0 : bus a = AttemptResult.glibError := by
        have := hglib 0 (Nat.succ_pos N)
        simpa using this
      have hstep : probeLoop bus a (t + 1) = probeLoop bus (a + 1) t := by
        simp [probeLoop, h0]
      rw [hstep]
      have := ih (a + 1) t (by omega)
        (fun i hi => by
          have := hglib (i + 1) (by omega)
          simpa [Nat.add_assoc, Nat.add_comm 1 i] using this)
        (by
          have : a + 1 + N = a + (N + 1) := by omega
          rw [this]
          exact hs)
      rw [this]
      have : a + 1 + N + 1 = a + (N + 1) + 1 := by omega
      rw [this]

theorem probeLoop_all_glib (bus : Nat → AttemptResult) :
    ∀ (t a : Nat), (∀ i, i ≤ t → bus (a + i) = AttemptResult.glibError) →
      probeLoop bus a t = ProbeOutcome.raisedGLib (a + t + 1) := by
  intro t
  induction t with
  | zero =>
    intro a h
    have h0 : bus a = AttemptResult.glibError := by simpa using h 0 (Nat.le_refl 0)
    simp [probeLoop, h0]
  | succ t ih =>
    intro a h
    have h0 : bus a = AttemptResult.glibError := by simpa using h 0 (by omega)
    have hstep : probeLoop bus a (t + 1) = probeLoop bus (a + 1) t := by
      simp [probeLoop, h0]
    rw [hstep]
    have := ih (a + 1)
      (fun i hi => by
        have := h (i + 1) (by omega)
        simpa [Nat.add_assoc, Nat.add_comm 1 i] using this)
    rw [this]
    have : a + 1 + t + 1 = a + (t + 1) + 1 := by omega
    rw [this]

theorem probeLoop_other (bus : Nat → AttemptResult) :
    ∀ (k a t : Nat), k ≤ t →
      (∀ i, i < k → bus (a + i) = AttemptResult.glibError) →
      bus (a + k) = AttemptResult.otherError →
      probeLoop bus a t = ProbeOutcome.raisedOther (a + k + 1) := by
  intro k
  induction k with
  | zero =>
    intro a t _ _ hs
    simp only [Nat.add_zero] at hs
    simp [probeLoop, hs]
  | succ k ih =>
    intro a t hkt hglib hs
    match t, hkt with
    | t + 1, _ =>
      have h0 : bus a = AttemptResult.glibError := by
        have := hglib 0 (Nat.succ_pos k)
        simpa using this
      have hstep : probeLoop bus a (t + 1) = probeLoop bus (a + 1) t := by
        simp [probeLoop, h0]
      rw [hstep]
      have := ih (a + 1) t (by omega)
        (fun i hi => by
          have := hglib (i + 1) (by omega)
          simpa [Nat.add_assoc, Nat.add_comm 1 i] using this)
        (by
          have : a + 1 + k = a + (k + 1) := by omega
          rw [this]
          exact hs)
      rw [this]
      have : a + 1 + k + 1 = a + (k + 1) + 1 := by omega
      rw [this]

/-- C1 counterexample: with a bus that fails every `StartServiceByName`
attempt with the transient GLib error, the probe performs 6 attempts (the
initial attempt plus the 5 retries granted by `timeout = 5`) before
re-raising — not 5 as the claim states. -/
theorem probe_all_fail_counterexample :
    probe (fun _ => AttemptResult.glibError) = ProbeOutcome.raisedGLib 6
    ∧ probe (fun _ => AttemptResult.glibError) ≠ ProbeOutcome.raisedGLib 5 := by
  constructor
  · rfl
  · decide

/-- C1 (amended): if the bus fails with the transient GLib error on the
first `N < 5` attempts and then succeeds, the probe succeeds after `N + 1`
attempts; if every attempt fails with that error, the probe makes exactly
6 attempts (the initial attempt plus 5 retries) and then re-raises the
error as fatal. -/
theorem probe_retry_semantics (bus : Nat → AttemptResult) :
    (∀ N : Nat, N < 5 →
      (∀ i, i < N → bus i = AttemptResult.glibError) →
      bus N = AttemptResult.success →
      probe bus = ProbeOutcome.ok (N + 1))
    ∧ ((∀ i, i ≤ 5 → bus i = AttemptResult.glibError) →
      probe bus = ProbeOutcome.raisedGLib 6) := by
  constructor
  · intro N hN hglib hs
    have := probeLoop_success bus N 0 5 (by omega)
      (fun i hi => by simpa using hglib i hi) (by simpa using hs)
    simpa [probe] using this
  · intro h
    have := probeLoop_all_glib bus 5 0 (fun i hi => by simpa using h i hi)
    simpa [probe] using this

/-- Witness for C1 (amended) at concrete buses: two transient failures then
success gives 3 attempts; constant transient failure gives 6 attempts. -/
theorem probe_retry_semantics_witness :
    probe (fun i => if i < 2 then AttemptResult.glibError else AttemptResult.success)
      = ProbeOutcome.ok 3
    ∧ probe (fun _ => AttemptResult.glibError) = ProbeOutcome.raisedGLib 6 :=
  ⟨(probe_retry_semantics _).1 2 (by decide)
      (by decide) (by decide),
   (probe_retry_semantics _).2 (fun i _ => rfl)⟩

/-- C5: the retry loop catches only the transient GLib "unknown service"
error; an attempt that raises any other error ends the probe immediately at
that attempt (no retry consumes it), for every position within the retry
budget. -/
theorem probe_other_error_propagates (bus : Nat → AttemptResult) (k : Nat)
    (hk : k ≤ 5)
    (hglib : ∀ i, i < k → bus i = AttemptResult.glibError)
    (hother : bus k = AttemptResult.otherError) :
    probe bus = ProbeOutcome.raisedOther (k + 1) := by
  have := probeLoop_other bus k 0 5 hk
    (fun i hi => by simpa using hglib i hi) (by simpa using hother)
  simpa [probe] using this

/-- Witness for C5: one transient failure, then a non-GLib error on the
second attempt, propagates immediately after 2 attempts. -/
theorem probe_other_error_propagates_witness :
    probe (fun i => if i = 0 then AttemptResult.glibError else AttemptResult.otherError)
      = ProbeOutcome.raisedOther 2 :=
  probe_other_error_propagates _ 1 (by decide) (by decide) (by decide)

/-!  ## Filesystem lemmas  -/

theorem writeFile_writeFile_same (fs : FS) (p : Path) (c0 c : String) :
    writeFile (writeFile fs p c0) p c = writeFile fs p c := by
  funext q
  by_cases h : q = p <;> simp [writeFile, h]

theorem applyWrites_overwrites (dst : Path) (ws : List (Path × String))
    (h : ∀ w ∈ ws, w.1 = dst) (fs : FS) (c0 : String) (hne : ws ≠ []) :
    applyWrites ws (writeFile fs dst c0) = applyWrites ws fs := by
  match ws, hne with
  | w :: ws, _ =>
    have hw : w.1 = dst := h w (List.mem_cons_self w ws)
    show applyWrites ws (writeFile (writeFile fs dst c0) w.1 w.2)
        = applyWrites ws (writeFile fs w.1 w.2)
    rw [hw, writeFile_writeFile_same]

/-- C4: every discovered `.service` template yields exactly one write, whose
content is the template rendered with the two-field substitution data (the
service executable's absolute path and the bus name) and whose destination
is `<datadir>/dbus-1/services/<busname>.service` — a path independent of the
source file's name; and on a repeated install any existing file at that
destination is overwritten (pre-existing content at the destination never
affects the final state). -/
theorem post_install_dbus_service_render (render : String → TemplateData → String)
    (datadir serviceExe : Path) (busname : String)
    (sources : List (Path × List Path)) (contents : Path → String) :
    (∀ sp ∈ sources, ∀ f ∈ sp.2, pathSuffix (sp.1 ++ f) = ".service" →
      (serviceDst datadir busname,
        render (contents (sp.1 ++ f)) ⟨pathStr serviceExe, busname⟩)
        ∈ post_install_dbus_writes render datadir serviceExe busname sources contents)
    ∧ (∀ w ∈ post_install_dbus_writes render datadir serviceExe busname sources contents,
        w.1 = serviceDst datadir busname)
    ∧ (∀ fs c0,
        post_install_dbus_writes render datadir serviceExe busname sources contents ≠ [] →
        applyWrites (post_install_dbus_writes render datadir serviceExe busname sources contents)
            (writeFile fs (serviceDst datadir busname) c0)
          = applyWrites
              (post_install_dbus_writes render datadir serviceExe busname sources contents)
              fs) := by
  have hdst : ∀ w ∈ post_install_dbus_writes render datadir serviceExe busname sources contents,
      w.1 = serviceDst datadir busname := by
    intro w hw
    simp only [post_install_dbus_writes, List.mem_flatMap, List.mem_filterMap] at hw
    obtain ⟨sp, _, f, _, heq⟩ := hw
    split at heq
    · cases heq
      rfl
    · cases heq
  refine ⟨?_, hdst, ?_⟩
  · intro sp hsp f hf hsuf
    simp only [post_install_dbus_writes, List.mem_flatMap, List.mem_filterMap]
    refine ⟨sp, hsp, f, hf, ?_⟩
    simp [hsuf]
  · intro fs c0 hne
    exact applyWrites_overwrites _ _ hdst fs c0 hne

/-- Witness for C4 at a concrete source tree with one `.service` template. -/
theorem post_install_dbus_service_render_witness :
    (serviceDst ["usr", "share"] "soundcraft.utils.notepad",
      (fun (s : String) (d : TemplateData) => s ++ d.dbus_service_bin ++ d.busname)
        "tmpl " ⟨pathStr ["usr", "bin", "soundcraft_session_service"], "soundcraft.utils.notepad"⟩)
      ∈ post_install_dbus_writes
          (fun (s : String) (d : TemplateData) => s ++ d.dbus_service_bin ++ d.busname)
          ["usr", "share"] ["usr", "bin", "soundcraft_session_service"]
          "soundcraft.utils.notepad"
          [(["opt", "data", "dbus-1"], [["session.service"]])] (fun _ => "tmpl ") :=
  (post_install_dbus_service_render
      (fun (s : String) (d : TemplateData) => s ++ d.dbus_service_bin ++ d.busname)
      ["usr", "share"] ["usr", "bin", "soundcraft_session_service"] "soundcraft.utils.notepad"
      [(["opt", "data", "dbus-1"], [["session.service"]])] (fun _ => "tmpl ")).1
    (["opt", "data", "dbus-1"], [["session.service"]]) (by simp)
    ["session.service"] (by simp) (by decide)

/-- C6: during pre-uninstall, removing an already-absent file is success:
the D-Bus step always returns without an exception, attempts the descriptor
unlink whether or not the service had an owner, and leaves the filesystem
untouched when the descriptor is absent; likewise the XDG step on an absent
`.svg` icon returns without an exception and leaves the filesystem
untouched. -/
theorem pre_uninstall_absent_tolerated (datadir : Path) (busname : String) (fs : FS) :
    (∀ running : Bool, ∃ fs2 tr,
      pre_uninstall_dbus_step datadir busname running fs = Except.ok (fs2, tr)
      ∧ Op.unlinkAttempt (serviceDst datadir busname) ∈ tr)
    ∧ (fs (serviceDst datadir busname) = none → ∀ running : Bool,
        pre_uninstall_dbus_step datadir busname running fs
          = Except.ok (fs, (if running then [Op.shutdownService] else [])
              ++ [Op.unlinkAttempt (serviceDst datadir busname)]))
    ∧ (∀ f : Path, pathSuffix f = ".svg" →
        fs (datadir ++ ["icons", "hicolor", "scalable", "apps", fileName f]) = none →
        pre_uninstall_xdg_file datadir f fs
          = Except.ok (fs, [Op.unlinkAttempt
              (datadir ++ ["icons", "hicolor", "scalable", "apps", fileName f])])) := by
  refine ⟨?_, ?_, ?_⟩
  · intro running
    cases hfs : fs (serviceDst datadir busname) with
    | none =>
      refine ⟨fs, (if running then [Op.shutdownService] else [])
          ++ [Op.unlinkAttempt (serviceDst datadir busname)], ?_, ?_⟩
      · simp [pre_uninstall_dbus_step, unlink, hfs]
      · simp
    | some c =>
      refine ⟨fun q => if q = serviceDst datadir busname then none else fs q,
          (if running then [Op.shutdownService] else [])
            ++ [Op.unlinkAttempt (serviceDst datadir busname)], ?_, ?_⟩
      · simp [pre_uninstall_dbus_step, unlink, hfs]
      · simp
  · intro hfs running
    simp [pre_uninstall_dbus_step, unlink, hfs]
  · intro f hsvg hfs
    simp only [pre_uninstall_xdg_file, hsvg]
    simp [unlink, hfs]

/-- Witness for C6: empty filesystem, service running and not running. -/
theorem pre_uninstall_absent_tolerated_witness :
    (pre_uninstall_dbus_step ["usr", "share"] "soundcraft.utils.notepad" true (fun _ => none)
      = Except.ok ((fun _ => none),
          [Op.shutdownService,
           Op.unlinkAttempt (serviceDst ["usr", "share"] "soundcraft.utils.notepad")]))
    ∧ (pre_uninstall_xdg_file ["usr", "share"] ["soundcraft.svg"] (fun _ => none)
      = Except.ok ((fun _ => none),
          [Op.unlinkAttempt
            (["usr", "share"] ++ ["icons", "hicolor", "scalable", "apps", "soundcraft.svg"])])) := by
  have h := pre_uninstall_absent_tolerated ["usr", "share"] "soundcraft.utils.notepad"
    (fun _ => none)
  exact ⟨h.2.1 rfl true, h.2.2 ["soundcraft.svg"] (by decide) rfl⟩

/-- C7: installing the same `.svg` file twice is idempotent: the second run
changes nothing (same filesystem, same operation trace), the destination
holds exactly the copied content, and no path other than the single
scalable-icon destination is touched. -/
theorem post_install_xdg_svg_idempotent (datadir srcpath f : Path)
    (contents : Path → String) (fs : FS)
    (h : pathSuffix (srcpath ++ f) = ".svg") :
    ((post_install_xdg_file datadir srcpath f contents
        (post_install_xdg_file datadir srcpath f contents fs).1)
      = post_install_xdg_file datadir srcpath f contents fs)
    ∧ ((post_install_xdg_file datadir srcpath f contents fs).1
        (datadir ++ ["icons", "hicolor", "scalable", "apps", fileName (srcpath ++ f)])
      = some (contents (srcpath ++ f)))
    ∧ (∀ q : Path,
        q ≠ datadir ++ ["icons", "hicolor", "scalable", "apps", fileName (srcpath ++ f)] →
        (post_install_xdg_file datadir srcpath f contents fs).1 q = fs q) := by
  refine ⟨?_, ?_, ?_⟩
  · simp only [post_install_xdg_file, h]
    simp [writeFile_writeFile_same]
  · simp only [post_install_xdg_file, h]
    simp [writeFile]
  · intro q hq
    simp only [post_install_xdg_file, h]
    simp [writeFile, hq]

/-- Witness for C7 at a concrete `.svg` file. -/
theorem post_install_xdg_svg_idempotent_witness :
    (post_install_xdg_file ["usr", "share"] ["opt", "data", "xdg"] ["soundcraft.svg"]
        (fun _ => "icon")
        (post_install_xdg_file ["usr", "share"] ["opt", "data", "xdg"] ["soundcraft.svg"]
          (fun _ => "icon") (fun _ => none)).1)
      = post_install_xdg_file ["usr", "share"] ["opt", "data", "xdg"] ["soundcraft.svg"]
          (fun _ => "icon") (fun _ => none) :=
  (post_install_xdg_svg_idempotent ["usr", "share"] ["opt", "data", "xdg"] ["soundcraft.svg"]
    (fun _ => "icon") (fun _ => none) (by decide)).1

/-- C9: a `.png` data file triggers exactly one external icon-resource
invocation per size 16, 24, 32, 48 and 256 — with size and file path on
install, size and bare file name on uninstall — and leaves the filesystem
unchanged; a file with any suffix other than `.desktop`, `.png`, `.svg`
triggers no operation at all in either step. -/
theorem xdg_png_five_sizes (datadir srcpath f : Path) (contents : Path → String) (fs : FS) :
    (pathSuffix (srcpath ++ f) = ".png" →
      post_install_xdg_file datadir srcpath f contents fs
        = (fs,
          [Op.run ["xdg-icon-resource", "install", "--novendor", "--size", "16",
              pathStr (srcpath ++ f)],
           Op.run ["xdg-icon-resource", "install", "--novendor", "--size", "24",
              pathStr (srcpath ++ f)],
           Op.run ["xdg-icon-resource", "install", "--novendor", "--size", "32",
              pathStr (srcpath ++ f)],
           Op.run ["xdg-icon-resource", "install", "--novendor", "--size", "48",
              pathStr (srcpath ++ f)],
           Op.run ["xdg-icon-resource", "install", "--novendor", "--size", "256",
              pathStr (srcpath ++ f)]]))
    ∧ (pathSuffix f = ".png" →
      pre_uninstall_xdg_file datadir f fs
        = Except.ok (fs,
          [Op.run ["xdg-icon-resource", "uninstall", "--size", "16", fileName f],
           Op.run ["xdg-icon-resource", "uninstall", "--size", "24", fileName f],
           Op.run ["xdg-icon-resource", "uninstall", "--size", "32", fileName f],
           Op.run ["xdg-icon-resource", "uninstall", "--size", "48", fileName f],
           Op.run ["xdg-icon-resource", "uninstall", "--size", "256", fileName f]]))
    ∧ (pathSuffix (srcpath ++ f) ∉ ([".desktop", ".png", ".svg"] : List String) →
      post_install_xdg_file datadir srcpath f contents fs = (fs, []))
    ∧ (pathSuffix f ∉ ([".desktop", ".png", ".svg"] : List String) →
      pre_uninstall_xdg_file datadir f fs = Except.ok (fs, [])) := by
  refine ⟨?_, ?_, ?_, ?_⟩
  · intro h
    simp only [post_install_xdg_file, h]
    simp [iconSizes]
    decide
  · intro h
    simp only [pre_uninstall_xdg_file, h]
    simp [iconSizes]
    decide
  · intro h
    simp only [List.mem_cons, List.not_mem_nil, not_or] at h
    obtain ⟨h1, h2, h3, _⟩ := h
    simp [post_install_xdg_file, h1, h2, h3]
  · intro h
    simp only [List.mem_cons, List.not_mem_nil, not_or] at h
    obtain ⟨h1, h2, h3, _⟩ := h
    simp [pre_uninstall_xdg_file, h1, h2, h3]

/-- Witness for C9 at a concrete `.png` file and a `.txt` file. -/
theorem xdg_png_five_sizes_witness :
    pre_uninstall_xdg_file ["usr", "share"] ["soundcraft.png"] (fun _ => none)
      = Except.ok ((fun _ => none),
        [Op.run ["xdg-icon-resource", "uninstall", "--size", "16", "soundcraft.png"],
         Op.run ["xdg-icon-resource", "uninstall", "--size", "24", "soundcraft.png"],
         Op.run ["xdg-icon-resource", "uninstall", "--size", "32", "soundcraft.png"],
         Op.run ["xdg-icon-resource", "uninstall", "--size", "48", "soundcraft.png"],
         Op.run ["xdg-icon-resource", "uninstall", "--size", "256", "soundcraft.png"]])
    ∧ pre_uninstall_xdg_file ["usr", "share"] ["README.txt"] (fun _ => none)
      = Except.ok ((fun _ => none), []) := by
  have h1 := xdg_png_five_sizes ["usr", "share"] [] ["soundcraft.png"] (fun _ => "")
    (fun _ => none)
  have h2 := xdg_png_five_sizes ["usr", "share"] [] ["README.txt"] (fun _ => "")
    (fun _ => none)
  exact ⟨h1.2.1 (by decide), h2.2.2.2 (by decide)⟩

end Installtool

